import Mathlib

/-!
Shallow embedding of pyAFQ's `AFQ/definitions/mapping.py`.

The module defines five configuration classes (`FnirtMap`, `ItkMap`, `SynMap`,
`SlrMap`, `AffMap`), two adapter classes (`ConformedFnirtMapping`,
`ConformedAffineMapping`) and the caching mixin `GeneratedMapMixin`.  Pure
values of the Python code become Lean data; the in-place mutations of
`self.fnames`, of the `row` dictionary and of the working directory become
explicit state passing (an association-list filesystem `FS`).  External
collaborators (fslpy, h5py, dipy registration routines, the BIDS file search
`find_file`, and `AFQ.registration.read_mapping` / `write_mapping`, none of
which are part of this module) are abstracted into an `Externals` record of
opaque functions; invocations of the registration routines are additionally
recorded in an event trace so that "the registration step was not invoked"
is expressible.
-/

set_option autoImplicit false

namespace PyAFQ

/-- Python exception outcomes that the mapping module can produce. -/
inductive PyErr where
  | keyError
  | importError (msg : String)
  | valueError (msg : String)
  | notImplementedError (msg : String)
  | attributeError (attr : String)
  | ioError (fname : String)
  | typeError (msg : String)
  deriving DecidableEq, Repr

/-- Keyword-argument dictionaries (filters, `affine_kwargs`, `syn_kwargs`, ...);
values are opaque strings since the module only stores and forwards them. -/
abbrev KW := List (String × String)

/-- A 4x4 affine matrix; entries are modelled as integers since the module
never computes with individual entries (matrix inversion is external). -/
abbrev Affine := List (List Int)

/-- A nibabel image: its array shape, its affine, and an opaque id for the
voxel data. -/
structure Img where
  shape : List Nat
  affine : Affine
  data : Nat
  deriving DecidableEq, Repr

/-- Python `dict` lookup (`d[k]` / `k in d`), over an association list whose
earliest entry for a key wins. -/
def dlookup {α : Type} : List (String × α) → String → Option α
  | [], _ => none
  | (k, v) :: rest, key => if k = key then some v else dlookup rest key

/-- Python `dict` assignment `d[k] = v`: overwrite the entry if the key is
present, append it otherwise. -/
def dinsert {α : Type} : List (String × α) → String → α → List (String × α)
  | [], key, v => [(key, v)]
  | (k, w) :: rest, key, v =>
    if k = key then (key, v) :: rest else (k, w) :: dinsert rest key v

/-- Two-level dictionary lookup `d[k1][k2]`, `none` when either key is absent
(a Python `KeyError`). -/
def dlookup2 {α : Type} (d : List (String × List (String × α))) (k1 k2 : String) :
    Option α :=
  (dlookup d k1).bind (fun inner => dlookup inner k2)

/-- The session/subject registration pattern shared by `FnirtMap.find_path`
(mapping.py lines 78-89) and `ItkMap.find_path` (lines 157-160):
`if session not in self.fnames: self.fnames[session] = {}` followed by
`self.fnames[session][subject] = v`. -/
def registerFname {α : Type} (fnames : List (String × List (String × α)))
    (session subject : String) (v : α) : List (String × List (String × α)) :=
  dinsert
    (if (dlookup fnames session).isNone then dinsert fnames session [] else fnames)
    session
    (dinsert
      ((dlookup
        (if (dlookup fnames session).isNone then dinsert fnames session [] else fnames)
        session).getD [])
      subject v)

/-- Contents a file in the working directory can hold: a NumPy-serialized
matrix (`np.save`), a JSON metadata dictionary (`afd.write_json`), or a
serialized mapping (`reg.write_mapping`, opaque serial number). -/
inductive FileContent where
  | npy (a : Affine)
  | json (meta : List (String × String))
  | mappingData (serial : Nat)
  deriving DecidableEq, Repr

/-- The working directory: file name to contents.  `op.exists` is lookup
success; writes never delete files. -/
abbrev FS := List (String × FileContent)

/-- `op.exists` / reading a file. -/
def FS.lookup (fs : FS) (fname : String) : Option FileContent := dlookup fs fname

/-- Writing a file (overwrites an existing file of the same name). -/
def FS.write (fs : FS) (fname : String) (c : FileContent) : FS := dinsert fs fname c

/-- Observable events of one `get_for_row` run: the affine pre-registration
ran (`affine_registration` at mapping.py line 215), the `gen_mapping`
registration step ran (line 243), or a file was written. -/
inductive Event where
  | affineReg
  | genMapping
  | wrote (fname : String) (content : FileContent)
  deriving DecidableEq, Repr

/-- The contents of an ITK HDF5 warp file, as read by `ItkMap.get_for_row`:
`TransformGroup/1/TransformFixedParameters` (integer shape header),
`TransformGroup/1/TransformParameters` (opaque displacement data), and
`TransformGroup/2/TransformParameters` (12 affine numbers). -/
structure WarpH5 where
  transformFixedParameters1 : List Int
  transformParameters1 : Nat
  transformParameters2 : List Int
  deriving DecidableEq, Repr

/-- A displacement-field image built in `ItkMap.get_for_row` lines 175-180:
opaque forward-parameters data together with its shape. -/
structure DispField where
  params : Nat
  shape : List Int
  deriving DecidableEq, Repr

/-- What `reg.read_mapping` is given as its first argument: either a cached
mapping file's contents (mapping.py line 256) or an in-memory
displacement-field Nifti image with its affine (line 188). -/
inductive MapSource where
  | file (serial : Nat)
  | dispImage (d : DispField) (affine : Affine)
  deriving DecidableEq, Repr

/-- `ConformedFnirtMapping` (mapping.py lines 102-120): wraps a FNIRT warp
(opaque id) and a reference affine. -/
structure ConformedFnirtMapping where
  warp : Nat
  ref_affine : Affine
  deriving DecidableEq, Repr

/-- The mapping objects that `get_for_row` methods of this module return:
a `ConformedFnirtMapping` (from `FnirtMap`), or the result of
`reg.read_mapping` (from `ItkMap` and from `GeneratedMapMixin.get_for_row`). -/
inductive Mapping where
  | conformedFnirt (m : ConformedFnirtMapping)
  | fromFile (src : MapSource) (dwi_file : String) (templ : Img) (prealign : Option Affine)
  deriving DecidableEq, Repr

/-- The intermediate mapping object produced by a `gen_mapping` method before
it is serialized: a SyN `DiffeomorphicMap` (whose `codomain_world2grid` may
have been overwritten, mapping.py line 307), an SLR mapping, or a
`ConformedAffineMapping` (line 370). -/
inductive PreMapping where
  | syn (raw : Nat) (codomain_world2grid : Option Affine)
  | slr (raw : Nat)
  | conformedAffine (affine : Affine)
  deriving DecidableEq, Repr

/-- One pipeline row: the subject/session identifiers, the diffusion file,
and the two timing accumulators that `GeneratedMapMixin` updates in place
(`row['timing']['Registration']`, `row['timing']['Registration_pre_align']`;
durations are abstracted to naturals). -/
structure Row where
  subject : String
  ses : String
  dwi_file : String
  timing_registration : Nat
  timing_pre_align : Nat
  deriving DecidableEq, Repr

/-- The external collaborators of the module, none of which are implemented
in `mapping.py`: the BIDS file search (`AFQ.definitions.utils.find_file`,
last argument is the optional `extension`), fslpy's `Image`, `readFnirt` and
`applyDeformation`, numpy's `astype(np.float32)` and `np.linalg.inv`,
nibabel's `Nifti1Image`, h5py file reading, dipy's `affine_registration` and
`syn_registration`, `AFQ.registration.slr_registration` and `write_mapping`,
and the wall-clock durations of the two registration steps. -/
structure Externals where
  find_file : String → String → KW → String → String → String → Option String → String
  image : String → Nat
  readFnirt : String → Nat → Nat → Nat
  applyDeformation : Nat → Nat → Nat
  astype_float32 : Nat → Nat
  niftiImage : Nat → Affine → Nat
  h5file : String → WarpH5
  affine_registration : Img → Img → KW → Nat × Affine
  syn_registration : Nat → Nat → Affine → Affine → Option Affine → KW → Nat
  slr_registration : Nat → Nat → Affine → List Nat → Affine → List Nat → KW → Nat
  write_mapping : PreMapping → Nat
  inv : Affine → Affine
  elapsed_pre_align : Nat
  elapsed_registration : Nat

/-- The parts of the `afq_object` collaborator that `mapping.py` uses:
`reg_template_img`, the opaque `reg_subject` / `reg_template` parameters,
`_get_fname(row, suffix)` and `_reg_img(param, flag, row)` (returning an
image and opaque streamlines). -/
structure AfqObject where
  reg_template_img : Img
  reg_subject : Nat
  reg_template : Nat
  getFname : Row → String → String
  regImg : Nat → Bool → Row → Img × Nat

/-- Modelled from the spec: `AFQ.registration.read_mapping` is not under
`src/`; per the spec a Mapping is "opaque, produced by an external
registration routine or file" and "must expose `transform(data, **kwargs)`
and `transform_inverse(data, **kwargs)`".  It packages its arguments into a
mapping object. -/
def read_mapping (src : MapSource) (dwi_file : String) (templ : Img)
    (prealign : Option Affine) : Mapping :=
  .fromFile src dwi_file templ prealign

/-- Whether a mapping object exposes a `transform(data, **kwargs)` method:
`ConformedFnirtMapping` defines `transform` (mapping.py line 117; it raises
when called but the method exists), and mappings returned by
`reg.read_mapping` expose it per the spec's Mapping contract. -/
def Mapping.exposes_transform : Mapping → Bool
  | .conformedFnirt _ => true
  | .fromFile _ _ _ _ => true

/-- Whether a mapping object exposes a `transform_inverse(data, **kwargs)`
method: `ConformedFnirtMapping` defines it at mapping.py line 111, and
mappings returned by `reg.read_mapping` expose it per the spec's Mapping
contract. -/
def Mapping.exposes_transform_inverse : Mapping → Bool
  | .conformedFnirt _ => true
  | .fromFile _ _ _ _ => true

/-- `ConformedFnirtMapping.transform` (mapping.py lines 117-120): always
raises `NotImplementedError`. -/
def ConformedFnirtMapping.transform (_self : ConformedFnirtMapping) (_data : Nat)
    (_kwargs : KW) : Except PyErr Nat :=
  .error (.notImplementedError
    ("Fnirt based mappings can currently" ++ " only transform from template to subject space"))

/-- `ConformedFnirtMapping.transform_inverse` (mapping.py lines 111-115):
wrap `data.astype(np.float32)` with `ref_affine` into an fsl image, apply the
deformation, return the resulting array. -/
def ConformedFnirtMapping.transform_inverse (ext : Externals)
    (self : ConformedFnirtMapping) (data : Nat) (_kwargs : KW) : Except PyErr Nat :=
  .ok (ext.applyDeformation
    (ext.niftiImage (ext.astype_float32 data) self.ref_affine) self.warp)

/-- `FnirtMap`: stored configuration plus the `fnames` registry
`session -> subject -> (warp file, space file)`. -/
structure FnirtMap where
  warp_suffix : String
  space_suffix : String
  warp_filters : KW
  space_filters : KW
  fnames : List (String × List (String × (String × String)))
  deriving DecidableEq, Repr

/-- `FnirtMap.__init__` (mapping.py lines 66-75): raise `ImportError` when
fslpy is absent, otherwise store the suffixes and filters and an empty
`fnames` registry. -/
def FnirtMap.init (has_fslpy : Bool) (warp_suffix space_suffix : String)
    (warp_filters space_filters : KW) : Except PyErr FnirtMap :=
  if ¬ has_fslpy then
    .error (.importError "Please install fslpy if you want to use FnirtMap")
  else
    .ok ⟨warp_suffix, space_suffix, warp_filters, space_filters, []⟩

/-- `FnirtMap.find_path` (mapping.py lines 77-89): look up warp and space
files via `find_file` and store them under `fnames[session][subject]`. -/
def FnirtMap.find_path (ext : Externals) (self : FnirtMap)
    (bids_layout from_path subject session : String) : FnirtMap :=
  { self with fnames :=
      (registerFname self.fnames session subject
        (ext.find_file bids_layout from_path self.warp_filters self.warp_suffix
          session subject none,
         ext.find_file bids_layout from_path self.space_filters self.space_suffix
          session subject none)) }

/-- `FnirtMap.get_for_row` (mapping.py lines 91-99): read the stored file
pair (a `KeyError` when `find_path` has not run for this row), build the
FNIRT warp and return a `ConformedFnirtMapping` over the template affine. -/
def FnirtMap.get_for_row (ext : Externals) (self : FnirtMap) (afq : AfqObject)
    (row : Row) : Except PyErr Mapping :=
  match dlookup self.fnames row.ses with
  | none => .error .keyError
  | some inner =>
    match dlookup inner row.subject with
    | none => .error .keyError
    | some wf =>
      .ok (.conformedFnirt
        ⟨ext.readFnirt wf.1 (ext.image wf.2) (ext.image row.dwi_file),
         afq.reg_template_img.affine⟩)

/-- `ItkMap`: stored configuration plus the `fnames` registry
`session -> subject -> warp file`. -/
structure ItkMap where
  warp_suffix : String
  warp_filters : KW
  fnames : List (String × List (String × String))
  deriving DecidableEq, Repr

/-- `ItkMap.__init__` (mapping.py lines 148-154): raise `ImportError` when
h5py is absent, otherwise store the suffix and filters and an empty
registry. -/
def ItkMap.init (has_h5py : Bool) (warp_suffix : String) (warp_filters : KW) :
    Except PyErr ItkMap :=
  if ¬ has_h5py then
    .error (.importError "Please install h5py if you want to use ItkMap")
  else
    .ok ⟨warp_suffix, warp_filters, []⟩

/-- `ItkMap.find_path` (mapping.py lines 156-162): look up the warp file via
`find_file` with `extension="h5"` and store it under
`fnames[session][subject]`. -/
def ItkMap.find_path (ext : Externals) (self : ItkMap)
    (bids_layout from_path subject session : String) : ItkMap :=
  { self with fnames :=
      (registerFname self.fnames session subject
        (ext.find_file bids_layout from_path self.warp_filters self.warp_suffix
          session subject (some "h5"))) }

/-- The shape comparison of `ItkMap.get_for_row` line 170:
`(our_shape != their_shape).any()`, elementwise over the template's shape and
the first three `TransformFixedParameters`. -/
def shapeMismatch (ours : List Nat) (theirs : List Int) : Bool :=
  (List.zip ours theirs).any (fun p => decide ((p.1 : Int) ≠ p.2))

/-- The 4x4 prealign matrix built by `ItkMap.get_for_row` lines 181-186 from
the 12 `TransformGroup/2/TransformParameters` numbers: the first nine fill
the upper-left 3x3 block row by row, the last three the translation column,
and the bottom row is `0 0 0 1`. -/
def itkPrealign (p : List Int) : Affine :=
  [[p.getD 0 0, p.getD 1 0, p.getD 2 0, p.getD 9 0],
   [p.getD 3 0, p.getD 4 0, p.getD 5 0, p.getD 10 0],
   [p.getD 6 0, p.getD 7 0, p.getD 8 0, p.getD 11 0],
   [0, 0, 0, 1]]

/-- `ItkMap.get_for_row` (mapping.py lines 164-190): read the stored warp
file (a `KeyError` when `find_path` has not run for this row), compare the
first three `TransformFixedParameters` against the template shape and raise
`ValueError` on any mismatch; otherwise build the displacement-field image
and the prealign matrix and hand them to `reg.read_mapping`. -/
def ItkMap.get_for_row (ext : Externals) (self : ItkMap) (afq : AfqObject)
    (row : Row) : Except PyErr Mapping :=
  match dlookup self.fnames row.ses with
  | none => .error .keyError
  | some inner =>
    match dlookup inner row.subject with
    | none => .error .keyError
    | some nearest_warp =>
      if shapeMismatch afq.reg_template_img.shape
          ((ext.h5file nearest_warp).transformFixedParameters1.take 3) then
        .error (.valueError
          "The shape of your ITK mapping is not the same as your template for registration")
      else
        .ok (read_mapping
          (.dispImage
            ⟨(ext.h5file nearest_warp).transformParameters1,
             (ext.h5file nearest_warp).transformFixedParameters1.take 3⟩
            afq.reg_template_img.affine)
          row.dwi_file afq.reg_template_img
          (some (itkPrealign (ext.h5file nearest_warp).transformParameters2)))

/-- Which concrete generated-map class an instance belongs to; `gen_mapping`
dispatches on it. -/
inductive GenKind where
  | syn
  | slr
  | aff
  deriving DecidableEq, Repr

/-- State of a `SynMap` / `SlrMap` / `AffMap` instance.  Each `Option KW`
attribute is `none` when the corresponding `__init__` never assigns it, so
reading it raises `AttributeError` (Python attribute semantics). -/
structure GenMap where
  kind : GenKind
  use_prealign : Bool
  affine_kwargs : Option KW
  syn_kwargs : Option KW
  slr_kwargs : Option KW
  extension : String
  deriving DecidableEq, Repr

/-- `SynMap.__init__` (mapping.py lines 288-292). -/
def SynMap.init (use_prealign : Bool) (affine_kwargs syn_kwargs : KW) : GenMap :=
  { kind := .syn, use_prealign := use_prealign, affine_kwargs := some affine_kwargs,
    syn_kwargs := some syn_kwargs, slr_kwargs := none, extension := ".nii.gz" }

/-- `SlrMap.__init__` (mapping.py lines 326-329): note that line 327 assigns
`self.syn_kwargs = {}`, discarding the `syn_kwargs` argument, and that no
attribute named `slr_kwargs` is ever assigned. -/
def SlrMap.init (_syn_kwargs : KW) : GenMap :=
  { kind := .slr, use_prealign := false, affine_kwargs := none,
    syn_kwargs := some [], slr_kwargs := none, extension := ".npy" }

/-- `AffMap.__init__` (mapping.py lines 360-363). -/
def AffMap.init (affine_kwargs : KW) : GenMap :=
  { kind := .aff, use_prealign := false, affine_kwargs := some affine_kwargs,
    syn_kwargs := none, slr_kwargs := none, extension := ".npy" }

/-- `GeneratedMapMixin.get_fnames` (mapping.py lines 199-206): the mapping
artifact file name (suffix plus extension) and the metadata file name. -/
def GenMap.get_fnames (_self : GenMap) (extension : String) (afq : AfqObject)
    (row : Row) : String × String :=
  (afq.getFname row "_mapping_from-DWI_to_MNI_xfm" ++ extension,
   afq.getFname row "_mapping_reg" ++ ".json")

/-- The prealign artifact file name (mapping.py lines 209-210). -/
def prealignFname (afq : AfqObject) (row : Row) : String :=
  afq.getFname row "_prealign_from-DWI_to-MNI_xfm.npy"

/-- The prealign metadata file name (mapping.py lines 220-221). -/
def prealignJsonFname (afq : AfqObject) (row : Row) : String :=
  afq.getFname row "_prealign_from-DWI_to-MNI_xfm.json"

/-- `GeneratedMapMixin.prealign` (mapping.py lines 208-226): if the prealign
`.npy` file already exists return its name unchanged; otherwise run
`affine_registration` on the subject registration image against the
template, save the affine as `.npy`, write the `{"type": "rigid"}` metadata
JSON, and add the elapsed time to `row['timing']['Registration_pre_align']`. -/
def GenMap.prealign (ext : Externals) (self : GenMap) (afq : AfqObject)
    (row : Row) (fs : FS) : Except PyErr (String × FS × Row × List Event) :=
  if (FS.lookup fs (prealignFname afq row)).isSome then
    .ok (prealignFname afq row, fs, row, [])
  else
    match self.affine_kwargs with
    | none => .error (.attributeError "affine_kwargs")
    | some akw =>
      .ok (prealignFname afq row,
        FS.write
          (FS.write fs (prealignFname afq row)
            (.npy (ext.affine_registration (afq.regImg afq.reg_subject true row).1
              afq.reg_template_img akw).2))
          (prealignJsonFname afq row) (.json [("type", "rigid")]),
        { row with timing_pre_align := row.timing_pre_align + ext.elapsed_pre_align },
        [.affineReg,
         .wrote (prealignFname afq row)
           (.npy (ext.affine_registration (afq.regImg afq.reg_subject true row).1
             afq.reg_template_img akw).2),
         .wrote (prealignJsonFname afq row) (.json [("type", "rigid")])])

/-- The `gen_mapping` methods of the three generated-map classes
(`SynMap` lines 297-308, `SlrMap` lines 334-342, `AffMap` lines 368-370),
dispatched on `kind`.  `SynMap` runs `syn_registration` and, when
`use_prealign` holds, overwrites the mapping's `codomain_world2grid` with
`np.linalg.inv(reg_prealign)`.  `SlrMap` reads `self.slr_kwargs`, an
attribute that `SlrMap.__init__` never sets, then would run
`slr_registration`.  `AffMap` calls `self.prealign`, loads the saved affine
and wraps it in a `ConformedAffineMapping`. -/
def GenMap.gen_mapping (ext : Externals) (self : GenMap) (afq : AfqObject)
    (row : Row) (reg_template_img : Img) (reg_template_sls : Nat)
    (reg_subject_img : Img) (reg_subject_sls : Nat)
    (reg_prealign : Option Affine) (fs : FS) :
    Except PyErr (PreMapping × FS × Row × List Event) :=
  match self.kind with
  | .syn =>
    match self.syn_kwargs with
    | none => .error (.attributeError "syn_kwargs")
    | some skw =>
      if self.use_prealign then
        match reg_prealign with
        | none => .error (.typeError "np.linalg.inv applied to None")
        | some p =>
          .ok (.syn (ext.syn_registration reg_subject_img.data reg_template_img.data
                reg_subject_img.affine reg_template_img.affine reg_prealign skw)
              (some (ext.inv p)),
            fs, row, [])
      else
        .ok (.syn (ext.syn_registration reg_subject_img.data reg_template_img.data
              reg_subject_img.affine reg_template_img.affine reg_prealign skw)
            none,
          fs, row, [])
  | .slr =>
    match self.slr_kwargs with
    | none => .error (.attributeError "slr_kwargs")
    | some kw =>
      .ok (.slr (ext.slr_registration reg_subject_sls reg_template_sls
            reg_subject_img.affine reg_subject_img.shape
            reg_template_img.affine reg_template_img.shape kw),
        fs, row, [])
  | .aff =>
    match GenMap.prealign ext self afq row fs with
    | .error e => .error e
    | .ok (pf, fs1, row1, ev) =>
      match FS.lookup fs1 pf with
      | some (.npy a) => .ok (.conformedAffine a, fs1, row1, ev)
      | _ => .error (.ioError pf)

/-- Lines 232-235 of `GeneratedMapMixin.get_for_row`: when `use_prealign`
holds, run `self.prealign` and `np.load` the saved affine. -/
def GenMap.loadPrealign (ext : Externals) (self : GenMap) (afq : AfqObject)
    (row : Row) (fs : FS) : Except PyErr (Option Affine × FS × Row × List Event) :=
  if self.use_prealign then
    match GenMap.prealign ext self afq row fs with
    | .error e => .error e
    | .ok (pf, fs1, row1, ev) =>
      match FS.lookup fs1 pf with
      | some (.npy a) => .ok (some a, fs1, row1, ev)
      | _ => .error (.ioError pf)
  else
    .ok (none, fs, row, [])

/-- Lines 236-251 of `GeneratedMapMixin.get_for_row`: when the mapping
artifact file does not exist, compute the registration images, run
`gen_mapping`, add the elapsed time to `row['timing']['Registration']`,
serialize the mapping with `reg.write_mapping` and write the
`{"type": "displacementfield"}` metadata JSON. -/
def GenMap.ensureMapping (ext : Externals) (self : GenMap) (afq : AfqObject)
    (mapping_file meta_fname : String) (reg_prealign : Option Affine)
    (fs : FS) (row : Row) : Except PyErr (FS × Row × List Event) :=
  if (FS.lookup fs mapping_file).isSome then
    .ok (fs, row, [])
  else
    match GenMap.gen_mapping ext self afq row
        (afq.regImg afq.reg_template false row).1 (afq.regImg afq.reg_template false row).2
        (afq.regImg afq.reg_subject true row).1 (afq.regImg afq.reg_subject true row).2
        reg_prealign fs with
    | .error e => .error e
    | .ok (pm, fs2, row2, ev2) =>
      .ok (FS.write (FS.write fs2 mapping_file (.mappingData (ext.write_mapping pm)))
            meta_fname (.json [("type", "displacementfield")]),
        { row2 with timing_registration := row2.timing_registration + ext.elapsed_registration },
        .genMapping :: ev2 ++
          [.wrote mapping_file (.mappingData (ext.write_mapping pm)),
           .wrote meta_fname (.json [("type", "displacementfield")])])

/-- `GeneratedMapMixin.get_for_row` (mapping.py lines 228-261): compute the
artifact file names, load the prealign when configured, generate and cache
the mapping when its file is absent, then read the cached mapping back with
`reg.read_mapping`, passing `np.linalg.inv(reg_prealign)` (or `None`) as
prealign. -/
def GenMap.get_for_row (ext : Externals) (self : GenMap) (afq : AfqObject)
    (row : Row) (fs : FS) : Except PyErr (Mapping × FS × Row × List Event) :=
  match GenMap.loadPrealign ext self afq row fs with
  | .error e => .error e
  | .ok (reg_prealign, fs1, row1, ev1) =>
    match GenMap.ensureMapping ext self afq
        (GenMap.get_fnames self self.extension afq row).1
        (GenMap.get_fnames self self.extension afq row).2 reg_prealign fs1 row1 with
    | .error e => .error e
    | .ok (fs2, row2, ev2) =>
      match FS.lookup fs2 (GenMap.get_fnames self self.extension afq row).1 with
      | some (.mappingData s) =>
        .ok (read_mapping (.file s) row2.dwi_file afq.reg_template_img
              (if self.use_prealign then reg_prealign.map ext.inv else none),
          fs2, row2, ev1 ++ ev2)
      | _ => .error (.ioError (GenMap.get_fnames self self.extension afq row).1)

/-- `SynMap.find_path` (mapping.py lines 294-295): the body is `pass`, so it
returns `None` and touches neither the instance nor the filesystem. -/
def SynMap.find_path (self : GenMap) (fs : FS)
    (_bids_layout _from_path _subject _session : String) :
    Option Unit × GenMap × FS :=
  (none, self, fs)

/-- `SlrMap.find_path` (mapping.py lines 331-332): the body is `pass`. -/
def SlrMap.find_path (self : GenMap) (fs : FS)
    (_bids_layout _from_path _subject _session : String) :
    Option Unit × GenMap × FS :=
  (none, self, fs)

/-- `AffMap.find_path` (mapping.py lines 365-366): the body is `pass`. -/
def AffMap.find_path (self : GenMap) (fs : FS)
    (_bids_layout _from_path _subject _session : String) :
    Option Unit × GenMap × FS :=
  (none, self, fs)

/-- The dipy `AffineMap` superclass of `ConformedAffineMapping`, with opaque
`transform` / `transform_inverse` implementations (dipy is external to this
module); generic in the positional-argument and result types. -/
structure DipyAffineMap (α β : Type) where
  transform_impl : α → KW → β
  transform_inverse_impl : α → KW → β

/-- Keyword assignment `kwargs['interp'] = interpolation`. -/
def kwSet (kw : KW) (k v : String) : KW := dinsert kw k v

/-- `ConformedAffineMapping.transform` (mapping.py lines 379-381): set
`kwargs['interp']` from the `interpolation` keyword and call the
superclass's `transform_inverse`. -/
def ConformedAffineMapping.transform {α β : Type} (self : DipyAffineMap α β)
    (args : α) (interpolation : String) (kwargs : KW) : β :=
  self.transform_inverse_impl args (kwSet kwargs "interp" interpolation)

/-- `ConformedAffineMapping.transform_inverse` (mapping.py lines 383-385):
set `kwargs['interp']` from the `interpolation` keyword and call the
superclass's `transform`. -/
def ConformedAffineMapping.transform_inverse {α β : Type} (self : DipyAffineMap α β)
    (args : α) (interpolation : String) (kwargs : KW) : β :=
  self.transform_impl args (kwSet kwargs "interp" interpolation)

/-! Concrete instances used to witness the hypotheses of the theorems. -/

/-- An identity 4x4 affine. -/
def idAffine : Affine := [[1, 0, 0, 0], [0, 1, 0, 0], [0, 0, 1, 0], [0, 0, 0, 1]]

/-- A concrete 3-dimensional image. -/
def imgD : Img := ⟨[2, 3, 4], idAffine, 1⟩

/-- A concrete instantiation of the external collaborators. -/
def extD : Externals where
  find_file := fun _ _ _ suffix session subject _ => subject ++ "_" ++ session ++ "_" ++ suffix
  image := fun _ => 0
  readFnirt := fun _ _ _ => 5
  applyDeformation := fun d _ => d + 1
  astype_float32 := fun d => d
  niftiImage := fun d _ => d
  h5file := fun _ => ⟨[2, 3, 4, 1, 1, 1], 9, [1, 0, 0, 0, 1, 0, 0, 0, 1, 5, 6, 7]⟩
  affine_registration := fun _ _ _ => (0, idAffine)
  syn_registration := fun _ _ _ _ _ _ => 11
  slr_registration := fun _ _ _ _ _ _ _ => 12
  write_mapping := fun _ => 13
  inv := fun a => a
  elapsed_pre_align := 1
  elapsed_registration := 2

/-- A concrete afq object whose `_get_fname` returns the suffix itself. -/
def afqD : AfqObject where
  reg_template_img := imgD
  reg_subject := 0
  reg_template := 1
  getFname := fun _ suffix => suffix
  regImg := fun _ _ _ => (imgD, 3)

/-- A concrete row. -/
def rowD : Row := ⟨"s1", "ses1", "dwi.nii.gz", 0, 0⟩

/-! Lemmas about the dictionary operations. -/

theorem dlookup_dinsert_self {α : Type} (d : List (String × α)) (k : String) (v : α) :
    dlookup (dinsert d k v) k = some v := by
  induction d with
  | nil => simp [dinsert, dlookup]
  | cons hd tl ih =>
    obtain ⟨k', v'⟩ := hd
    by_cases h : k' = k
    · simp [dinsert, dlookup, h]
    · simp [dinsert, dlookup, h, ih]

theorem dlookup_dinsert_ne {α : Type} (d : List (String × α)) (k k' : String) (v : α)
    (h : k' ≠ k) : dlookup (dinsert d k v) k' = dlookup d k' := by
  induction d with
  | nil => simp [dinsert, dlookup, Ne.symm h]
  | cons hd tl ih =>
    obtain ⟨a, b⟩ := hd
    by_cases hak : a = k
    · subst hak
      simp [dinsert, dlookup, h, Ne.symm h]
    · by_cases hak' : a = k'
      · simp [dinsert, dlookup, hak, hak', h]
      · simp [dinsert, dlookup, hak, hak', ih]

theorem dlookup2_registerFname_self {α : Type}
    (fn : List (String × List (String × α))) (session subject : String) (v : α) :
    dlookup2 (registerFname fn session subject v) session subject = some v := by
  unfold registerFname dlookup2
  rw [dlookup_dinsert_self, Option.some_bind, dlookup_dinsert_self]

theorem dlookup2_registerFname_ne {α : Type}
    (fn : List (String × List (String × α))) (session subject s' u' : String) (v : α)
    (h : s' ≠ session ∨ u' ≠ subject) :
    dlookup2 (registerFname fn session subject v) s' u' = dlookup2 fn s' u' := by
  unfold registerFname dlookup2
  by_cases hs : s' = session
  · subst hs
    rcases h with h | h
    · exact absurd rfl h
    · rw [dlookup_dinsert_self, Option.some_bind, dlookup_dinsert_ne _ _ _ _ h]
      by_cases hnone : (dlookup fn s').isNone
      · simp only [if_pos hnone]
        rw [dlookup_dinsert_self]
        rw [Option.isNone_iff_eq_none] at hnone
        simp [hnone, dlookup]
      · simp only [if_neg hnone]
        cases hsome : dlookup fn s' with
        | none => simp [hsome] at hnone
        | some inner => simp [hsome]
  · rw [dlookup_dinsert_ne _ _ _ _ hs]
    by_cases hnone : (dlookup fn session).isNone
    · simp only [if_pos hnone]
      rw [dlookup_dinsert_ne _ _ _ _ hs]
    · simp only [if_neg hnone]

/-! The claims. -/

/-- C4: constructing a `FnirtMap` raises `ImportError` if and only if fslpy
is missing, and constructing an `ItkMap` raises `ImportError` if and only if
h5py is missing; when the dependency is present, construction succeeds and
stores the given suffixes and filters (with an empty `fnames` registry). -/
theorem claim4_init_import_error (ws ss : String) (wf sf : KW) (iws : String) (iwf : KW) :
    FnirtMap.init false ws ss wf sf =
      .error (.importError "Please install fslpy if you want to use FnirtMap") ∧
    FnirtMap.init true ws ss wf sf = .ok ⟨ws, ss, wf, sf, []⟩ ∧
    ItkMap.init false iws iwf =
      .error (.importError "Please install h5py if you want to use ItkMap") ∧
    ItkMap.init true iws iwf = .ok ⟨iws, iwf, []⟩ :=
  ⟨rfl, rfl, rfl, rfl⟩

/-- C6: `ConformedFnirtMapping.transform` raises `NotImplementedError` on
every input, while `transform_inverse` does not raise: it returns the
deformed data array obtained by applying the warp. -/
theorem claim6_fnirt_transform_directions (ext : Externals)
    (self : ConformedFnirtMapping) (data : Nat) (kwargs : KW) :
    (∃ msg, ConformedFnirtMapping.transform self data kwargs =
      .error (.notImplementedError msg)) ∧
    ConformedFnirtMapping.transform_inverse ext self data kwargs =
      .ok (ext.applyDeformation (ext.niftiImage (ext.astype_float32 data) self.ref_affine)
        self.warp) :=
  ⟨⟨_, rfl⟩, rfl⟩

/-- C8: `ConformedAffineMapping` swaps the two transform directions of the
underlying dipy `AffineMap`: its `transform` with keyword `interpolation=i`
calls the superclass `transform_inverse` with `interp=i` on the same
arguments, and its `transform_inverse` calls the superclass `transform`. -/
theorem claim8_conformed_affine_swaps (α β : Type) (self : DipyAffineMap α β)
    (args : α) (i : String) (kwargs : KW) :
    ConformedAffineMapping.transform self args i kwargs =
      self.transform_inverse_impl args (kwSet kwargs "interp" i) ∧
    ConformedAffineMapping.transform_inverse self args i kwargs =
      self.transform_impl args (kwSet kwargs "interp" i) :=
  ⟨rfl, rfl⟩

/-- C9: `find_path` of `SynMap`, `SlrMap` and `AffMap` is a no-op: it
returns `None` and leaves both the instance and the filesystem unchanged. -/
theorem claim9_generated_find_path_noop (self : GenMap) (fs : FS)
    (bids_layout from_path subject session : String) :
    SynMap.find_path self fs bids_layout from_path subject session = (none, self, fs) ∧
    SlrMap.find_path self fs bids_layout from_path subject session = (none, self, fs) ∧
    AffMap.find_path self fs bids_layout from_path subject session = (none, self, fs) :=
  ⟨rfl, rfl, rfl⟩

/-- C2 (failing part): `SlrMap.get_for_row` on a row whose mapping artifact
is absent raises `AttributeError` on `slr_kwargs` instead of producing a
Mapping, because `SlrMap.__init__` assigns `syn_kwargs` (to `{}`, discarding
its argument) while `SlrMap.gen_mapping` reads `self.slr_kwargs`; when the
artifact is already cached, `get_for_row` succeeds since `gen_mapping` is
skipped. -/
theorem claim2_slr_gen_mapping_attribute_error :
    GenMap.get_for_row extD (SlrMap.init []) afqD rowD [] =
      .error (.attributeError "slr_kwargs") ∧
    (SlrMap.init [("level_iters", "5")]).syn_kwargs = some [] ∧
    (SlrMap.init [("level_iters", "5")]).slr_kwargs = none ∧
    GenMap.get_for_row extD (SlrMap.init []) afqD rowD
        [("_mapping_from-DWI_to_MNI_xfm.npy", .mappingData 7)] =
      .ok (.fromFile (.file 7) "dwi.nii.gz" imgD none,
        [("_mapping_from-DWI_to_MNI_xfm.npy", .mappingData 7)], rowD, []) :=
  ⟨rfl, rfl, rfl, rfl⟩

/-- C1: every mapping object returned by a `get_for_row` method of any of
the five configuration classes (`FnirtMap`, `ItkMap`, and the three
generated-map classes, all instances of `GenMap`) exposes both a
`transform(data, **kwargs)` and a `transform_inverse(data, **kwargs)`
method. -/
theorem claim1_mapping_interface (ext : Externals) (afq : AfqObject) (row : Row) (fs : FS) :
    (∀ (fm : FnirtMap) (m : Mapping), FnirtMap.get_for_row ext fm afq row = .ok m →
      Mapping.exposes_transform m = true ∧ Mapping.exposes_transform_inverse m = true) ∧
    (∀ (im : ItkMap) (m : Mapping), ItkMap.get_for_row ext im afq row = .ok m →
      Mapping.exposes_transform m = true ∧ Mapping.exposes_transform_inverse m = true) ∧
    (∀ (gm : GenMap) (m : Mapping) (fs' : FS) (row' : Row) (ev : List Event),
      GenMap.get_for_row ext gm afq row fs = .ok (m, fs', row', ev) →
      Mapping.exposes_transform m = true ∧ Mapping.exposes_transform_inverse m = true) := by
  refine ⟨?_, ?_, ?_⟩
  · intro fm m _
    cases m <;> exact ⟨rfl, rfl⟩
  · intro im m _
    cases m <;> exact ⟨rfl, rfl⟩
  · intro gm m fs' row' ev _
    cases m <;> exact ⟨rfl, rfl⟩

/-- Witness for C1: a `FnirtMap.get_for_row` run that returns a
`ConformedFnirtMapping`, and a generated-map run that returns a
`read_mapping` result, both exposing the two methods. -/
theorem claim1_witness :
    (Mapping.exposes_transform (.conformedFnirt ⟨5, idAffine⟩) = true ∧
     Mapping.exposes_transform_inverse (.conformedFnirt ⟨5, idAffine⟩) = true) ∧
    (Mapping.exposes_transform (.fromFile (.file 7) "dwi.nii.gz" imgD none) = true ∧
     Mapping.exposes_transform_inverse (.fromFile (.file 7) "dwi.nii.gz" imgD none) = true) := by
  constructor
  · exact (claim1_mapping_interface extD afqD rowD []).1
      (FnirtMap.find_path extD ⟨"warp", "MNI", [], [], []⟩ "bl" "fp" "s1" "ses1")
      (.conformedFnirt ⟨5, idAffine⟩) (by rfl)
  · exact (claim1_mapping_interface extD afqD rowD
        [("_mapping_from-DWI_to_MNI_xfm.npy", .mappingData 7)]).2.2
      (SlrMap.init []) (.fromFile (.file 7) "dwi.nii.gz" imgD none)
      [("_mapping_from-DWI_to_MNI_xfm.npy", .mappingData 7)] rowD [] (by rfl)

/-- C10: for `FnirtMap` and `ItkMap`, `find_path` stores exactly one entry
under `fnames[session][subject]` (the file or file pair located by
`find_file`) without disturbing any other session/subject pair, and
`get_for_row` raises `KeyError` exactly when no entry was stored for the
row's session/subject pair. -/
theorem claim10_fnames_registry (ext : Externals) (afq : AfqObject) (row : Row)
    (fm : FnirtMap) (im : ItkMap) (bl fp subject session s' u' : String) :
    (dlookup2 (FnirtMap.find_path ext fm bl fp subject session).fnames session subject =
      some (ext.find_file bl fp fm.warp_filters fm.warp_suffix session subject none,
            ext.find_file bl fp fm.space_filters fm.space_suffix session subject none)) ∧
    ((s' ≠ session ∨ u' ≠ subject) →
      dlookup2 (FnirtMap.find_path ext fm bl fp subject session).fnames s' u' =
        dlookup2 fm.fnames s' u') ∧
    (FnirtMap.get_for_row ext fm afq row = .error .keyError ↔
      dlookup2 fm.fnames row.ses row.subject = none) ∧
    (dlookup2 (ItkMap.find_path ext im bl fp subject session).fnames session subject =
      some (ext.find_file bl fp im.warp_filters im.warp_suffix session subject (some "h5"))) ∧
    ((s' ≠ session ∨ u' ≠ subject) →
      dlookup2 (ItkMap.find_path ext im bl fp subject session).fnames s' u' =
        dlookup2 im.fnames s' u') ∧
    (ItkMap.get_for_row ext im afq row = .error .keyError ↔
      dlookup2 im.fnames row.ses row.subject = none) := by
  refine ⟨dlookup2_registerFname_self _ _ _ _,
    fun h => dlookup2_registerFname_ne _ _ _ _ _ _ h, ?_,
    dlookup2_registerFname_self _ _ _ _,
    fun h => dlookup2_registerFname_ne _ _ _ _ _ _ h, ?_⟩
  · unfold FnirtMap.get_for_row dlookup2
    cases houter : dlookup fm.fnames row.ses with
    | none => simp
    | some inner =>
      cases hinner : dlookup inner row.subject with
      | none => simp [hinner]
      | some wf => simp [hinner]
  · unfold ItkMap.get_for_row dlookup2
    cases houter : dlookup im.fnames row.ses with
    | none => simp
    | some inner =>
      cases hinner : dlookup inner row.subject with
      | none => simp [hinner]
      | some wf =>
        simp only [Option.some_bind, hinner]
        split <;> simp

/-- Witness for C10: after `find_path` on a fresh `FnirtMap`, the stored
entry is readable, disjoint pairs are untouched, and `get_for_row` on the
fresh instance raises `KeyError`. -/
theorem claim10_witness :
    (dlookup2 (FnirtMap.find_path extD ⟨"warp", "MNI", [], [], []⟩ "bl" "fp" "s1" "ses1").fnames
        "ses1" "s1" = some ("s1_ses1_warp", "s1_ses1_MNI")) ∧
    (dlookup2 (FnirtMap.find_path extD ⟨"warp", "MNI", [], [], []⟩ "bl" "fp" "s1" "ses1").fnames
        "ses2" "s1" = dlookup2 (⟨"warp", "MNI", [], [], []⟩ : FnirtMap).fnames "ses2" "s1") ∧
    (FnirtMap.get_for_row extD ⟨"warp", "MNI", [], [], []⟩ afqD rowD = .error .keyError ↔
      dlookup2 (⟨"warp", "MNI", [], [], []⟩ : FnirtMap).fnames rowD.ses rowD.subject = none) := by
  refine ⟨?_, ?_, ?_⟩
  · exact (claim10_fnames_registry extD afqD rowD ⟨"warp", "MNI", [], [], []⟩ ⟨"xfm", [], []⟩
      "bl" "fp" "s1" "ses1" "ses2" "s1").1
  · exact (claim10_fnames_registry extD afqD rowD ⟨"warp", "MNI", [], [], []⟩ ⟨"xfm", [], []⟩
      "bl" "fp" "s1" "ses1" "ses2" "s1").2.1 (by left; decide)
  · exact (claim10_fnames_registry extD afqD rowD ⟨"warp", "MNI", [], [], []⟩ ⟨"xfm", [], []⟩
      "bl" "fp" "s1" "ses1" "ses2" "s1").2.2.1

theorem shapeMismatch_iff_exists (ours : List Nat) (theirs : List Int)
    (h1 : ours.length = 3) (h2 : theirs.length = 3) :
    shapeMismatch ours theirs = true ↔
      ∃ i, i < 3 ∧ (ours.getD i 0 : Int) ≠ theirs.getD i 0 := by
  obtain ⟨a, b, c, rfl⟩ := List.length_eq_three.mp h1
  obtain ⟨x, y, z, rfl⟩ := List.length_eq_three.mp h2
  simp only [shapeMismatch, List.zip, List.zipWith, List.any_cons, List.any_nil,
    Bool.or_false, Bool.or_eq_true, decide_eq_true_eq]
  constructor
  · rintro (h | h | h)
    · exact ⟨0, by omega, by simpa using h⟩
    · exact ⟨1, by omega, by simpa using h⟩
    · exact ⟨2, by omega, by simpa using h⟩
  · rintro ⟨i, hi, hne⟩
    interval_cases i <;> simp_all

/-- C5: `ItkMap.get_for_row` raises `ValueError` exactly when the first
three `TransformFixedParameters` dimensions read from the warp file differ
in some component from the shape of the registration template image; when
they agree it returns the mapping built by `reg.read_mapping` from the
warp's displacement field and prealign parameters. -/
theorem claim5_itk_shape_validation (ext : Externals) (self : ItkMap)
    (afq : AfqObject) (row : Row) (wfile : String)
    (hentry : dlookup2 self.fnames row.ses row.subject = some wfile)
    (hlen1 : afq.reg_template_img.shape.length = 3)
    (hlen2 : 3 ≤ (ext.h5file wfile).transformFixedParameters1.length) :
    ((∃ msg, ItkMap.get_for_row ext self afq row = .error (.valueError msg)) ↔
      shapeMismatch afq.reg_template_img.shape
        ((ext.h5file wfile).transformFixedParameters1.take 3) = true) ∧
    (shapeMismatch afq.reg_template_img.shape
        ((ext.h5file wfile).transformFixedParameters1.take 3) = true ↔
      ∃ i, i < 3 ∧ (afq.reg_template_img.shape.getD i 0 : Int) ≠
        ((ext.h5file wfile).transformFixedParameters1.take 3).getD i 0) ∧
    (shapeMismatch afq.reg_template_img.shape
        ((ext.h5file wfile).transformFixedParameters1.take 3) = false →
      ItkMap.get_for_row ext self afq row = .ok (read_mapping
        (.dispImage ⟨(ext.h5file wfile).transformParameters1,
          (ext.h5file wfile).transformFixedParameters1.take 3⟩
          afq.reg_template_img.affine)
        row.dwi_file afq.reg_template_img
        (some (itkPrealign (ext.h5file wfile).transformParameters2)))) := by
  unfold dlookup2 at hentry
  obtain ⟨inner, houter, hinner⟩ := Option.bind_eq_some.mp hentry
  have hred : ItkMap.get_for_row ext self afq row =
      (if shapeMismatch afq.reg_template_img.shape
          ((ext.h5file wfile).transformFixedParameters1.take 3) then
        .error (.valueError
          "The shape of your ITK mapping is not the same as your template for registration")
      else
        .ok (read_mapping
          (.dispImage ⟨(ext.h5file wfile).transformParameters1,
            (ext.h5file wfile).transformFixedParameters1.take 3⟩
            afq.reg_template_img.affine)
          row.dwi_file afq.reg_template_img
          (some (itkPrealign (ext.h5file wfile).transformParameters2)))) := by
    unfold ItkMap.get_for_row
    simp only [houter, hinner]
  refine ⟨?_, ?_, ?_⟩
  · rw [hred]
    cases hmm : shapeMismatch afq.reg_template_img.shape
        ((ext.h5file wfile).transformFixedParameters1.take 3) <;> simp [hmm]
  · exact shapeMismatch_iff_exists _ _ hlen1 (by rw [List.length_take]; omega)
  · intro hmm
    rw [hred, hmm]
    simp

/-- Witness for C5: a concrete run where the first three fixed parameters
agree with the template shape, so no `ValueError` is raised and the mapping
is constructed. -/
theorem claim5_witness :
    ((∃ msg, ItkMap.get_for_row extD
        (ItkMap.find_path extD ⟨"xfm", [], []⟩ "bl" "fp" "s1" "ses1") afqD rowD =
        .error (.valueError msg)) ↔
      shapeMismatch afqD.reg_template_img.shape
        ((extD.h5file "s1_ses1_xfm").transformFixedParameters1.take 3) = true) ∧
    (shapeMismatch afqD.reg_template_img.shape
        ((extD.h5file "s1_ses1_xfm").transformFixedParameters1.take 3) = false →
      ItkMap.get_for_row extD
        (ItkMap.find_path extD ⟨"xfm", [], []⟩ "bl" "fp" "s1" "ses1") afqD rowD =
      .ok (read_mapping
        (.dispImage ⟨(extD.h5file "s1_ses1_xfm").transformParameters1,
          (extD.h5file "s1_ses1_xfm").transformFixedParameters1.take 3⟩
          afqD.reg_template_img.affine)
        rowD.dwi_file afqD.reg_template_img
        (some (itkPrealign (extD.h5file "s1_ses1_xfm").transformParameters2)))) := by
  constructor
  · exact (claim5_itk_shape_validation extD
      (ItkMap.find_path extD ⟨"xfm", [], []⟩ "bl" "fp" "s1" "ses1") afqD rowD
      "s1_ses1_xfm" (by rfl) (by decide) (by decide)).1
  · exact (claim5_itk_shape_validation extD
      (ItkMap.find_path extD ⟨"xfm", [], []⟩ "bl" "fp" "s1" "ses1") afqD rowD
      "s1_ses1_xfm" (by rfl) (by decide) (by decide)).2.2

theorem FS_lookup_write_self (fs : FS) (k : String) (c : FileContent) :
    FS.lookup (FS.write fs k c) k = some c :=
  dlookup_dinsert_self fs k c

theorem FS_lookup_write_ne (fs : FS) (k k' : String) (c : FileContent) (h : k' ≠ k) :
    FS.lookup (FS.write fs k c) k' = FS.lookup fs k' :=
  dlookup_dinsert_ne fs k k' c h

/-- Characterization of a successful `GeneratedMapMixin.prealign` run:
either the `.npy` file existed and nothing happened, or it did not and the
registration ran, both artifact files were written and the pre-align timing
accumulated. -/
theorem prealign_ok_inv (ext : Externals) (self : GenMap) (afq : AfqObject)
    (row : Row) (fs : FS) (pf : String) (fs' : FS) (row' : Row) (ev : List Event)
    (h : GenMap.prealign ext self afq row fs = .ok (pf, fs', row', ev)) :
    pf = prealignFname afq row ∧
    ((fs' = fs ∧ row' = row ∧ ev = [] ∧ (FS.lookup fs (prealignFname afq row)).isSome) ∨
     ((FS.lookup fs (prealignFname afq row)).isSome = false ∧ ∃ a : Affine,
        fs' = FS.write (FS.write fs (prealignFname afq row) (.npy a))
          (prealignJsonFname afq row) (.json [("type", "rigid")]) ∧
        row' = { row with timing_pre_align := row.timing_pre_align + ext.elapsed_pre_align } ∧
        ev = [.affineReg, .wrote (prealignFname afq row) (.npy a),
              .wrote (prealignJsonFname afq row) (.json [("type", "rigid")])])) := by
  unfold GenMap.prealign at h
  split at h
  · rename_i hex
    simp only [Except.ok.injEq, Prod.mk.injEq] at h
    obtain ⟨h1, h2, h3, h4⟩ := h
    exact ⟨h1.symm, .inl ⟨h2.symm, h3.symm, h4.symm, hex⟩⟩
  · rename_i hex
    split at h
    · simp at h
    · simp only [Except.ok.injEq, Prod.mk.injEq] at h
      obtain ⟨h1, h2, h3, h4⟩ := h
      exact ⟨h1.symm, .inr ⟨by simpa using hex, _, h2.symm, h3.symm, h4.symm⟩⟩

/-- A successful `prealign` run never emits the `genMapping` event, writes
only the two prealign artifact files, leaves every other file untouched and
preserves the row's `dwi_file`. -/
theorem prealign_ok_facts (ext : Externals) (self : GenMap) (afq : AfqObject)
    (row : Row) (fs : FS) (pf : String) (fs' : FS) (row' : Row) (ev : List Event)
    (h : GenMap.prealign ext self afq row fs = .ok (pf, fs', row', ev)) :
    Event.genMapping ∉ ev ∧
    (∀ k c, Event.wrote k c ∈ ev → k = prealignFname afq row ∨ k = prealignJsonFname afq row) ∧
    (∀ k, k ≠ prealignFname afq row → k ≠ prealignJsonFname afq row →
      FS.lookup fs' k = FS.lookup fs k) ∧
    row'.dwi_file = row.dwi_file := by
  obtain ⟨hpf, hcases⟩ := prealign_ok_inv ext self afq row fs pf fs' row' ev h
  rcases hcases with ⟨hfs, hrow, hev, _⟩ | ⟨hnone, a, hfs, hrow, hev⟩
  · subst hfs; subst hrow; subst hev
    exact ⟨by simp, by simp, fun k _ _ => rfl, rfl⟩
  · subst hfs; subst hrow; subst hev
    refine ⟨by simp, ?_, ?_, rfl⟩
    · rintro k c hk
      simp only [List.mem_cons, List.not_mem_nil, or_false] at hk
      rcases hk with hk | hk | hk
      · exact absurd hk (by simp)
      · injection hk with hk1 _
        exact .inl hk1
      · injection hk with hk1 _
        exact .inr hk1
    · intro k hk1 hk2
      rw [FS_lookup_write_ne _ _ _ _ hk2, FS_lookup_write_ne _ _ _ _ hk1]

/-- The facts of `prealign_ok_facts` carried through line 232's
`np.load(self.prealign(...))` step. -/
theorem loadPrealign_ok_facts (ext : Externals) (self : GenMap) (afq : AfqObject)
    (row : Row) (fs : FS) (rp : Option Affine) (fs1 : FS) (row1 : Row) (ev1 : List Event)
    (h : GenMap.loadPrealign ext self afq row fs = .ok (rp, fs1, row1, ev1)) :
    Event.genMapping ∉ ev1 ∧
    (∀ k c, Event.wrote k c ∈ ev1 → k = prealignFname afq row ∨ k = prealignJsonFname afq row) ∧
    (∀ k, k ≠ prealignFname afq row → k ≠ prealignJsonFname afq row →
      FS.lookup fs1 k = FS.lookup fs k) ∧
    row1.dwi_file = row.dwi_file := by
  unfold GenMap.loadPrealign at h
  split at h
  · split at h
    · simp at h
    · rename_i q hp
      split at h
      · simp only [Except.ok.injEq, Prod.mk.injEq] at h
        obtain ⟨_, h2, h3, h4⟩ := h
        subst h2; subst h3; subst h4
        exact prealign_ok_facts ext self afq row fs _ _ _ _ hp
      · simp at h
  · simp only [Except.ok.injEq, Prod.mk.injEq] at h
    obtain ⟨_, h2, h3, h4⟩ := h
    subst h2; subst h3; subst h4
    exact ⟨by simp, by simp, fun k _ _ => rfl, rfl⟩

/-- A successful `gen_mapping` run never emits the `genMapping` event
itself, writes at most the two prealign artifact files (the `AffMap` case),
leaves every other file untouched and preserves the row's `dwi_file`. -/
theorem gen_mapping_ok_facts (ext : Externals) (self : GenMap) (afq : AfqObject)
    (row : Row) (ti : Img) (ts : Nat) (si : Img) (ss : Nat) (rp : Option Affine)
    (fs : FS) (pm : PreMapping) (fs2 : FS) (row2 : Row) (ev2 : List Event)
    (h : GenMap.gen_mapping ext self afq row ti ts si ss rp fs = .ok (pm, fs2, row2, ev2)) :
    Event.genMapping ∉ ev2 ∧
    (∀ k c, Event.wrote k c ∈ ev2 → k = prealignFname afq row ∨ k = prealignJsonFname afq row) ∧
    (∀ k, k ≠ prealignFname afq row → k ≠ prealignJsonFname afq row →
      FS.lookup fs2 k = FS.lookup fs k) ∧
    row2.dwi_file = row.dwi_file := by
  unfold GenMap.gen_mapping at h
  split at h
  · -- SynMap
    split at h
    · simp at h
    · split at h
      · split at h
        · simp at h
        · simp only [Except.ok.injEq, Prod.mk.injEq] at h
          obtain ⟨_, h2, h3, h4⟩ := h
          subst h2; subst h3; subst h4
          exact ⟨by simp, by simp, fun k _ _ => rfl, rfl⟩
      · simp only [Except.ok.injEq, Prod.mk.injEq] at h
        obtain ⟨_, h2, h3, h4⟩ := h
        subst h2; subst h3; subst h4
        exact ⟨by simp, by simp, fun k _ _ => rfl, rfl⟩
  · -- SlrMap
    split at h
    · simp at h
    · simp only [Except.ok.injEq, Prod.mk.injEq] at h
      obtain ⟨_, h2, h3, h4⟩ := h
      subst h2; subst h3; subst h4
      exact ⟨by simp, by simp, fun k _ _ => rfl, rfl⟩
  · -- AffMap
    split at h
    · simp at h
    · rename_i q hp
      split at h
      · simp only [Except.ok.injEq, Prod.mk.injEq] at h
        obtain ⟨_, h2, h3, h4⟩ := h
        subst h2; subst h3; subst h4
        exact prealign_ok_facts ext self afq row fs _ _ _ _ hp
      · simp at h

/-- Characterization of a successful run of lines 236-251: either the
mapping file existed and nothing happened, or it did not, `gen_mapping` ran
and both the artifact and its metadata JSON were written. -/
theorem ensureMapping_ok_inv (ext : Externals) (self : GenMap) (afq : AfqObject)
    (mf mj : String) (rp : Option Affine) (fs : FS) (row : Row)
    (fs' : FS) (row' : Row) (ev : List Event)
    (h : GenMap.ensureMapping ext self afq mf mj rp fs row = .ok (fs', row', ev)) :
    ((FS.lookup fs mf).isSome ∧ fs' = fs ∧ row' = row ∧ ev = []) ∨
    ((FS.lookup fs mf).isSome = false ∧ ∃ pm fs2 row2 ev2,
      GenMap.gen_mapping ext self afq row (afq.regImg afq.reg_template false row).1
        (afq.regImg afq.reg_template false row).2 (afq.regImg afq.reg_subject true row).1
        (afq.regImg afq.reg_subject true row).2 rp fs = .ok (pm, fs2, row2, ev2) ∧
      fs' = FS.write (FS.write fs2 mf (.mappingData (ext.write_mapping pm))) mj
        (.json [("type", "displacementfield")]) ∧
      row' = { row2 with
        timing_registration := row2.timing_registration + ext.elapsed_registration } ∧
      ev = .genMapping :: ev2 ++
        [.wrote mf (.mappingData (ext.write_mapping pm)),
         .wrote mj (.json [("type", "displacementfield")])]) := by
  unfold GenMap.ensureMapping at h
  split at h
  · rename_i hex
    simp only [Except.ok.injEq, Prod.mk.injEq] at h
    obtain ⟨h1, h2, h3⟩ := h
    exact .inl ⟨hex, h1.symm, h2.symm, h3.symm⟩
  · rename_i hex
    split at h
    · simp at h
    · rename_i q hg
      simp only [Except.ok.injEq, Prod.mk.injEq] at h
      obtain ⟨h1, h2, h3⟩ := h
      exact .inr ⟨by simpa using hex, _, _, _, _, hg, h1.symm, h2.symm, h3.symm⟩

/-- Decomposition of a successful `GeneratedMapMixin.get_for_row` run into
its prealign stage, its caching stage and the final `read_mapping` call. -/
theorem get_for_row_ok_inv (ext : Externals) (self : GenMap) (afq : AfqObject)
    (row : Row) (fs : FS) (m : Mapping) (fsF : FS) (rowF : Row) (ev : List Event)
    (h : GenMap.get_for_row ext self afq row fs = .ok (m, fsF, rowF, ev)) :
    ∃ rp fs1 row1 ev1 fs2 row2 ev2 s,
      GenMap.loadPrealign ext self afq row fs = .ok (rp, fs1, row1, ev1) ∧
      GenMap.ensureMapping ext self afq (GenMap.get_fnames self self.extension afq row).1
        (GenMap.get_fnames self self.extension afq row).2 rp fs1 row1 =
        .ok (fs2, row2, ev2) ∧
      fsF = fs2 ∧ rowF = row2 ∧ ev = ev1 ++ ev2 ∧
      FS.lookup fs2 (GenMap.get_fnames self self.extension afq row).1 =
        some (.mappingData s) ∧
      m = .fromFile (.file s) row2.dwi_file afq.reg_template_img
        (if self.use_prealign then rp.map ext.inv else none) := by
  unfold GenMap.get_for_row at h
  split at h
  · simp at h
  · rename_i q hl
    split at h
    · simp at h
    · rename_i q2 he
      split at h
      · rename_i s hlk
        simp only [read_mapping, Except.ok.injEq, Prod.mk.injEq] at h
        obtain ⟨hm, hfs, hrow, hev⟩ := h
        exact ⟨_, _, _, _, _, _, _, s, hl, he, hfs.symm, hrow.symm, hev.symm, hlk, hm.symm⟩
      · simp at h

/-- C3: the filesystem presence check short-circuits recomputation.  (i) If
the prealign `.npy` file exists, `prealign` recomputes nothing and leaves
the filesystem and row untouched.  (ii) If the cached mapping artifact
exists, a successful `get_for_row` never invokes the `gen_mapping`
registration step, never writes the artifact, and returns a mapping loaded
from the existing artifact.  (iii) When the artifact is absent, a successful
`get_for_row` runs `gen_mapping` and writes the artifact.  The two
hypotheses say that the prealign artifact names differ from the mapping
artifact name (as with `_get_fname`'s distinct suffixes). -/
theorem claim3_cache_short_circuit (ext : Externals) (self : GenMap) (afq : AfqObject)
    (row : Row) (fs : FS)
    (hpf : ∀ r : Row, prealignFname afq r ≠ (GenMap.get_fnames self self.extension afq row).1)
    (hpj : ∀ r : Row, prealignJsonFname afq r ≠ (GenMap.get_fnames self self.extension afq row).1) :
    ((FS.lookup fs (prealignFname afq row)).isSome →
      GenMap.prealign ext self afq row fs = .ok (prealignFname afq row, fs, row, [])) ∧
    (∀ m fsF rowF ev, GenMap.get_for_row ext self afq row fs = .ok (m, fsF, rowF, ev) →
      (FS.lookup fs (GenMap.get_fnames self self.extension afq row).1).isSome →
      Event.genMapping ∉ ev ∧
      (∀ c, Event.wrote (GenMap.get_fnames self self.extension afq row).1 c ∉ ev) ∧
      ∃ s pre, FS.lookup fs (GenMap.get_fnames self self.extension afq row).1 =
          some (.mappingData s) ∧
        m = .fromFile (.file s) row.dwi_file afq.reg_template_img pre) ∧
    (∀ m fsF rowF ev, GenMap.get_for_row ext self afq row fs = .ok (m, fsF, rowF, ev) →
      FS.lookup fs (GenMap.get_fnames self self.extension afq row).1 = none →
      Event.genMapping ∈ ev ∧
      ∃ c, Event.wrote (GenMap.get_fnames self self.extension afq row).1 c ∈ ev) := by
  refine ⟨?_, ?_, ?_⟩
  · intro hex
    unfold GenMap.prealign
    rw [if_pos hex]
  · intro m fsF rowF ev h hsome
    obtain ⟨rp, fs1, row1, ev1, fs2, row2, ev2, s, hl, he, hfs, hrow, hev, hlk, hm⟩ :=
      get_for_row_ok_inv ext self afq row fs m fsF rowF ev h
    obtain ⟨hg1, hw1, hpres, hdwi⟩ :=
      loadPrealign_ok_facts ext self afq row fs rp fs1 row1 ev1 hl
    have hmf1 : FS.lookup fs1 (GenMap.get_fnames self self.extension afq row).1 =
        FS.lookup fs (GenMap.get_fnames self self.extension afq row).1 :=
      hpres _ (Ne.symm (hpf row)) (Ne.symm (hpj row))
    rcases ensureMapping_ok_inv ext self afq _ _ rp fs1 row1 fs2 row2 ev2 he with
      ⟨hs2, hfs2, hrow2, hev2⟩ | ⟨hfalse, _⟩
    · subst hfs2; subst hrow2; subst hev2
      rw [hmf1] at hlk
      refine ⟨?_, ?_, s, (if self.use_prealign then rp.map ext.inv else none), hlk, ?_⟩
      · rw [hev]
        simpa using hg1
      · intro c hc
        rw [hev] at hc
        simp only [List.append_nil] at hc
        rcases hw1 _ _ hc with hk | hk
        · exact hpf row hk.symm
        · exact hpj row hk.symm
      · rw [hdwi] at hm
        exact hm
    · rw [hmf1] at hfalse
      rw [hfalse] at hsome
      exact absurd hsome (by simp)
  · intro m fsF rowF ev h hnone
    obtain ⟨rp, fs1, row1, ev1, fs2, row2, ev2, s, hl, he, hfs, hrow, hev, hlk, hm⟩ :=
      get_for_row_ok_inv ext self afq row fs m fsF rowF ev h
    obtain ⟨hg1, hw1, hpres, hdwi⟩ :=
      loadPrealign_ok_facts ext self afq row fs rp fs1 row1 ev1 hl
    have hmf1 : FS.lookup fs1 (GenMap.get_fnames self self.extension afq row).1 =
        FS.lookup fs (GenMap.get_fnames self self.extension afq row).1 :=
      hpres _ (Ne.symm (hpf row)) (Ne.symm (hpj row))
    rcases ensureMapping_ok_inv ext self afq _ _ rp fs1 row1 fs2 row2 ev2 he with
      ⟨hs2, _, _, _⟩ | ⟨hfalse, pm, fs2i, row2i, ev2i, hg, hfs2, hrow2, hev2⟩
    · rw [hmf1, hnone] at hs2
      exact absurd hs2 (by simp)
    · subst hev2
      constructor
      · rw [hev]
        simp
      · refine ⟨.mappingData (ext.write_mapping pm), ?_⟩
        rw [hev]
        simp

theorem prealignFname_afqD (r : Row) :
    prealignFname afqD r = "_prealign_from-DWI_to-MNI_xfm.npy" := rfl

theorem prealignJsonFname_afqD (r : Row) :
    prealignJsonFname afqD r = "_prealign_from-DWI_to-MNI_xfm.json" := rfl

/-- Witness for C3: (i) a `prealign` call whose `.npy` file exists does
nothing; (ii) an `SlrMap.get_for_row` run over a cached artifact skips
`gen_mapping` and loads the artifact; (iii) a `SynMap.get_for_row` run over
an empty working directory runs `gen_mapping` and writes the artifact. -/
theorem claim3_witness :
    (GenMap.prealign extD (SynMap.init true [] []) afqD rowD
        [("_prealign_from-DWI_to-MNI_xfm.npy", .npy idAffine)] =
      .ok ("_prealign_from-DWI_to-MNI_xfm.npy",
        [("_prealign_from-DWI_to-MNI_xfm.npy", .npy idAffine)], rowD, [])) ∧
    (Event.genMapping ∉ ([] : List Event) ∧
      (∀ c, Event.wrote "_mapping_from-DWI_to_MNI_xfm.npy" c ∉ ([] : List Event)) ∧
      ∃ s pre, FS.lookup [("_mapping_from-DWI_to_MNI_xfm.npy", .mappingData 7)]
          "_mapping_from-DWI_to_MNI_xfm.npy" = some (.mappingData s) ∧
        (Mapping.fromFile (.file 7) "dwi.nii.gz" imgD none) =
          .fromFile (.file s) rowD.dwi_file afqD.reg_template_img pre) ∧
    (Event.genMapping ∈
        ([.affineReg, .wrote "_prealign_from-DWI_to-MNI_xfm.npy" (.npy idAffine),
          .wrote "_prealign_from-DWI_to-MNI_xfm.json" (.json [("type", "rigid")]),
          .genMapping, .wrote "_mapping_from-DWI_to_MNI_xfm.nii.gz" (.mappingData 13),
          .wrote "_mapping_reg.json" (.json [("type", "displacementfield")])] : List Event) ∧
      ∃ c, Event.wrote "_mapping_from-DWI_to_MNI_xfm.nii.gz" c ∈
        ([.affineReg, .wrote "_prealign_from-DWI_to-MNI_xfm.npy" (.npy idAffine),
          .wrote "_prealign_from-DWI_to-MNI_xfm.json" (.json [("type", "rigid")]),
          .genMapping, .wrote "_mapping_from-DWI_to_MNI_xfm.nii.gz" (.mappingData 13),
          .wrote "_mapping_reg.json" (.json [("type", "displacementfield")])] : List Event)) := by
  refine ⟨?_, ?_, ?_⟩
  · exact (claim3_cache_short_circuit extD (SynMap.init true [] []) afqD rowD
      [("_prealign_from-DWI_to-MNI_xfm.npy", .npy idAffine)]
      (fun r => by rw [prealignFname_afqD]; decide)
      (fun r => by rw [prealignJsonFname_afqD]; decide)).1 (by rfl)
  · exact (claim3_cache_short_circuit extD (SlrMap.init []) afqD rowD
      [("_mapping_from-DWI_to_MNI_xfm.npy", .mappingData 7)]
      (fun r => by rw [prealignFname_afqD]; decide)
      (fun r => by rw [prealignJsonFname_afqD]; decide)).2.1
      (.fromFile (.file 7) "dwi.nii.gz" imgD none)
      [("_mapping_from-DWI_to_MNI_xfm.npy", .mappingData 7)] rowD []
      (by rfl) (by rfl)
  · exact (claim3_cache_short_circuit extD (SynMap.init true [] []) afqD rowD []
      (fun r => by rw [prealignFname_afqD]; decide)
      (fun r => by rw [prealignJsonFname_afqD]; decide)).2.2
      (.fromFile (.file 13) "dwi.nii.gz" imgD (some idAffine))
      [("_prealign_from-DWI_to-MNI_xfm.npy", .npy idAffine),
       ("_prealign_from-DWI_to-MNI_xfm.json", .json [("type", "rigid")]),
       ("_mapping_from-DWI_to_MNI_xfm.nii.gz", .mappingData 13),
       ("_mapping_reg.json", .json [("type", "displacementfield")])]
      ⟨"s1", "ses1", "dwi.nii.gz", 2, 1⟩
      [.affineReg, .wrote "_prealign_from-DWI_to-MNI_xfm.npy" (.npy idAffine),
       .wrote "_prealign_from-DWI_to-MNI_xfm.json" (.json [("type", "rigid")]),
       .genMapping, .wrote "_mapping_from-DWI_to_MNI_xfm.nii.gz" (.mappingData 13),
       .wrote "_mapping_reg.json" (.json [("type", "displacementfield")])]
      (by rfl) (by rfl)

/-- C7: whenever a generated-map class writes a registration artifact it
also writes the JSON metadata sidecar: a `prealign` run that wrote the
prealign `.npy` also wrote (and leaves on disk) the `{"type": "rigid"}`
sidecar, and a `get_for_row` run that wrote the mapping artifact also wrote
(and leaves on disk) the `{"type": "displacementfield"}` sidecar. -/
theorem claim7_metadata_sidecars (ext : Externals) (self : GenMap) (afq : AfqObject)
    (row : Row) (fs : FS)
    (hpf : ∀ r : Row, prealignFname afq r ≠ (GenMap.get_fnames self self.extension afq row).1)
    (hpj : ∀ r : Row, prealignJsonFname afq r ≠ (GenMap.get_fnames self self.extension afq row).1) :
    (∀ pf fs' row' ev c, GenMap.prealign ext self afq row fs = .ok (pf, fs', row', ev) →
      Event.wrote (prealignFname afq row) c ∈ ev →
      Event.wrote (prealignJsonFname afq row) (.json [("type", "rigid")]) ∈ ev ∧
      FS.lookup fs' (prealignJsonFname afq row) = some (.json [("type", "rigid")])) ∧
    (∀ m fsF rowF ev c, GenMap.get_for_row ext self afq row fs = .ok (m, fsF, rowF, ev) →
      Event.wrote (GenMap.get_fnames self self.extension afq row).1 c ∈ ev →
      Event.wrote (GenMap.get_fnames self self.extension afq row).2
        (.json [("type", "displacementfield")]) ∈ ev ∧
      FS.lookup fsF (GenMap.get_fnames self self.extension afq row).2 =
        some (.json [("type", "displacementfield")])) := by
  constructor
  · intro pf fs' row' ev c h hw
    obtain ⟨hpfeq, hcases⟩ := prealign_ok_inv ext self afq row fs pf fs' row' ev h
    rcases hcases with ⟨_, _, hev, _⟩ | ⟨_, a, hfs, _, hev⟩
    · subst hev
      simp at hw
    · subst hev; subst hfs
      exact ⟨by simp, FS_lookup_write_self _ _ _⟩
  · intro m fsF rowF ev c h hw
    obtain ⟨rp, fs1, row1, ev1, fs2, row2, ev2, s, hl, he, hfs, hrow, hev, hlk, hm⟩ :=
      get_for_row_ok_inv ext self afq row fs m fsF rowF ev h
    obtain ⟨hg1, hw1, hpres, hdwi⟩ :=
      loadPrealign_ok_facts ext self afq row fs rp fs1 row1 ev1 hl
    subst hev
    rcases List.mem_append.mp hw with hw2 | hw2
    · rcases hw1 _ _ hw2 with hk | hk
      · exact absurd hk.symm (hpf row)
      · exact absurd hk.symm (hpj row)
    · rcases ensureMapping_ok_inv ext self afq _ _ rp fs1 row1 fs2 row2 ev2 he with
        ⟨_, _, _, hev2⟩ | ⟨_, pm, fs2i, row2i, ev2i, hg, hfs2, hrow2, hev2⟩
      · subst hev2
        simp at hw2
      · subst hev2
        constructor
        · simp
        · rw [hfs, hfs2]
          exact FS_lookup_write_self _ _ _

/-- Witness for C7: the `SynMap` run over an empty working directory writes
the prealign artifact with its rigid sidecar and the mapping artifact with
its displacement-field sidecar. -/
theorem claim7_witness :
    (Event.wrote "_prealign_from-DWI_to-MNI_xfm.json" (.json [("type", "rigid")]) ∈
        ([.affineReg, .wrote "_prealign_from-DWI_to-MNI_xfm.npy" (.npy idAffine),
          .wrote "_prealign_from-DWI_to-MNI_xfm.json" (.json [("type", "rigid")])] : List Event) ∧
      FS.lookup [("_prealign_from-DWI_to-MNI_xfm.npy", .npy idAffine),
          ("_prealign_from-DWI_to-MNI_xfm.json", .json [("type", "rigid")])]
        "_prealign_from-DWI_to-MNI_xfm.json" = some (.json [("type", "rigid")])) ∧
    (Event.wrote "_mapping_reg.json" (.json [("type", "displacementfield")]) ∈
        ([.affineReg, .wrote "_prealign_from-DWI_to-MNI_xfm.npy" (.npy idAffine),
          .wrote "_prealign_from-DWI_to-MNI_xfm.json" (.json [("type", "rigid")]),
          .genMapping, .wrote "_mapping_from-DWI_to_MNI_xfm.nii.gz" (.mappingData 13),
          .wrote "_mapping_reg.json" (.json [("type", "displacementfield")])] : List Event) ∧
      FS.lookup [("_prealign_from-DWI_to-MNI_xfm.npy", .npy idAffine),
          ("_prealign_from-DWI_to-MNI_xfm.json", .json [("type", "rigid")]),
          ("_mapping_from-DWI_to_MNI_xfm.nii.gz", .mappingData 13),
          ("_mapping_reg.json", .json [("type", "displacementfield")])]
        "_mapping_reg.json" = some (.json [("type", "displacementfield")])) := by
  constructor
  · exact (claim7_metadata_sidecars extD (SynMap.init true [] []) afqD rowD []
      (fun r => by rw [prealignFname_afqD]; decide)
      (fun r => by rw [prealignJsonFname_afqD]; decide)).1
      "_prealign_from-DWI_to-MNI_xfm.npy"
      [("_prealign_from-DWI_to-MNI_xfm.npy", .npy idAffine),
       ("_prealign_from-DWI_to-MNI_xfm.json", .json [("type", "rigid")])]
      ⟨"s1", "ses1", "dwi.nii.gz", 0, 1⟩
      [.affineReg, .wrote "_prealign_from-DWI_to-MNI_xfm.npy" (.npy idAffine),
       .wrote "_prealign_from-DWI_to-MNI_xfm.json" (.json [("type", "rigid")])]
      (.npy idAffine) (by rfl) (by decide)
  · exact (claim7_metadata_sidecars extD (SynMap.init true [] []) afqD rowD []
      (fun r => by rw [prealignFname_afqD]; decide)
      (fun r => by rw [prealignJsonFname_afqD]; decide)).2
      (.fromFile (.file 13) "dwi.nii.gz" imgD (some idAffine))
      [("_prealign_from-DWI_to-MNI_xfm.npy", .npy idAffine),
       ("_prealign_from-DWI_to-MNI_xfm.json", .json [("type", "rigid")]),
       ("_mapping_from-DWI_to_MNI_xfm.nii.gz", .mappingData 13),
       ("_mapping_reg.json", .json [("type", "displacementfield")])]
      ⟨"s1", "ses1", "dwi.nii.gz", 2, 1⟩
      [.affineReg, .wrote "_prealign_from-DWI_to-MNI_xfm.npy" (.npy idAffine),
       .wrote "_prealign_from-DWI_to-MNI_xfm.json" (.json [("type", "rigid")]),
       .genMapping, .wrote "_mapping_from-DWI_to_MNI_xfm.nii.gz" (.mappingData 13),
       .wrote "_mapping_reg.json" (.json [("type", "displacementfield")])]
      (.mappingData 13) (by rfl) (by decide)

end PyAFQ
